import Mathlib

/-!
Shallow embedding of the heating controller in `src/kjeller/main.py`.

Modelling conventions:
* Python `float` and `datetime` arithmetic are modelled over exact rationals
  (`ℚ`); absolute instants are rational minutes since an epoch, in UTC.
* The process-local timezone is assumed to be UTC, so the
  `.astimezone(UTC)` call applied to the naive `datetime.combine(now, ...)`
  result in `within_time_range` is the identity.
* A time of day is the number of minutes since midnight; `strptime "%H:%M"`
  yields whole minutes (a `ℕ`), while `now` may fall between minute marks,
  so instants carry a rational time of day.
* Python exceptions are modelled with `Except PyExc`; an uncaught exception
  is an `Except.error` value that propagates through `bind`.
* Python truthiness on optional numbers (`not x`, `x or y`) is modelled
  explicitly: `none` and numeric `0` are falsy.
-/

namespace Kjeller

/-- Python exceptions that the embedded code can raise or catch.
`httpStatusError` models `httpx.HTTPStatusError` (raised by
`response.raise_for_status()`), which in the `httpx` library is a sibling of
`httpx.RequestError` under `httpx.HTTPError`, not a subclass of
`RequestError`. -/
inductive PyExc where
  | valueError
  | indexError
  | tibberApiError
  | httpStatusError
  | validationError
deriving DecidableEq, Repr

/-- Weekday enumeration from `class Weekday(str, Enum)`. -/
inductive Weekday where
  | monday
  | tuesday
  | wednesday
  | thursday
  | friday
  | saturday
  | sunday
deriving DecidableEq, Repr

/-- A UTC instant as consumed by the schedule code: its weekday
(`datetime.now(UTC).strftime("%A").lower()`) and its time of day in minutes
since midnight (rational, since `now` has second/microsecond precision). -/
structure Instant where
  weekday : Weekday
  tod : ℚ
deriving DecidableEq

/-- Configuration of one room (`class RoomConfig`).  The `schedule` dict is a
function from weekday to `Option (Option (List String))`: the outer `Option`
models key absence, the inner one a key mapped to Python `None`. -/
structure RoomConfig where
  name : String
  uniqueid : String
  schedule : Weekday → Option (Option (List String))
  temperature : Option ℤ := none
  night_temperature : Option ℤ := none
  max_price : Option ℚ := none

/-- Global configuration (`class GlobalConfig`). -/
structure GlobalConfig where
  debug : Bool
  sleep : ℤ
  lat : ℚ
  long : ℚ
  max_price : Option ℚ := none
  temperature : Option ℤ := none
  night_temperature : Option ℤ := none

/-- Python truthiness of an optional integer: `None` and `0` are falsy. -/
def truthyInt : Option ℤ → Bool
  | none => false
  | some x => decide (x ≠ 0)

/-- Python truthiness of an optional rational: `None` and `0.0` are falsy. -/
def truthyRat : Option ℚ → Bool
  | none => false
  | some x => decide (x ≠ 0)

/-- Python `a or d` where `a` is an optional integer and `d` an integer
(the last link of chains such as `room.night_temperature or ... or 10`). -/
def pyOrInt (a : Option ℤ) (d : ℤ) : ℤ :=
  if truthyInt a then a.getD 0 else d

/-- Python `a or b` for two optional rationals
(`room.max_price or config.global_config.max_price`). -/
def pyOrOpt (a b : Option ℚ) : Option ℚ :=
  if truthyRat a then a else b

/-- Numeric value of a digit character. -/
def digitVal (c : Char) : ℕ := c.toNat - 48

/-- Hour parser of `strptime "%H:%M"`: the regular expression
`2[0-3]|[0-1]\d|\d`, i.e. two digits when their value is at most 23,
otherwise a single digit. -/
def takeHour : List Char → Option (ℕ × List Char)
  | c1 :: c2 :: rest =>
    if c1.isDigit ∧ c2.isDigit ∧ 10 * digitVal c1 + digitVal c2 ≤ 23 then
      some (10 * digitVal c1 + digitVal c2, rest)
    else if c1.isDigit then some (digitVal c1, c2 :: rest)
    else none
  | [c1] => if c1.isDigit then some (digitVal c1, []) else none
  | [] => none

/-- Minute parser of `strptime "%H:%M"`: the regular expression
`[0-5]\d|\d`. -/
def takeMinute : List Char → Option (ℕ × List Char)
  | c1 :: c2 :: rest =>
    if c1.isDigit ∧ c2.isDigit ∧ 10 * digitVal c1 + digitVal c2 ≤ 59 then
      some (10 * digitVal c1 + digitVal c2, rest)
    else if c1.isDigit then some (digitVal c1, c2 :: rest)
    else none
  | [c1] => if c1.isDigit then some (digitVal c1, []) else none
  | [] => none

/-- Model of `datetime.strptime(s, "%H:%M").time()` as minutes since
midnight; `none` models the `ValueError` raised on a parse failure
(including trailing unconverted data). -/
def parseHHMM (cs : List Char) : Option ℕ :=
  match takeHour cs with
  | none => none
  | some (h, rest) =>
    match rest with
    | ':' :: rest2 =>
      match takeMinute rest2 with
      | none => none
      | some (m, rest3) => if rest3 = [] then some (60 * h + m) else none
    | _ => none

/-- Model of Python `s.split("-")`: splits at every `'-'`, keeping empty
fields, and yields `[s]` when no separator occurs. -/
def pySplitDash : List Char → List (List Char)
  | [] => [[]]
  | c :: rest =>
    if c = '-' then [] :: pySplitDash rest
    else
      match pySplitDash rest with
      | [] => [[c]]
      | p :: ps => (c :: p) :: ps

/-- Model of `RoomConfig.todays_schedules`: dictionary lookup by the current
weekday, collapsing an absent key and a key mapped to `None`. -/
def todays_schedules (room : RoomConfig) (now : Instant) : Option (List String) :=
  match room.schedule now.weekday with
  | some v => v
  | none => none

/-- Body of the `for schdule in self.todays_schedules` loop inside
`RoomConfig.within_time_range`, with exceptions uncaught: for each window
string the code evaluates `split("-")[0]` through `strptime` (a parse
failure raises `ValueError`), then `split("-")[1]` (a missing second field
raises `IndexError`), then `strptime` again, and finally tests
`start <= now <= end` on the same calendar day, returning on the first
match. -/
def scan_windows : List String → ℚ → Except PyExc Bool
  | [], _ => .ok false
  | w :: rest, tod =>
    match pySplitDash w.data with
    | [] => .error .indexError
    | p0 :: ptail =>
      match parseHHMM p0 with
      | none => .error .valueError
      | some start =>
        match ptail with
        | [] => .error .indexError
        | p1 :: _ =>
          match parseHHMM p1 with
          | none => .error .valueError
          | some endt =>
            if (start : ℚ) ≤ tod ∧ tod ≤ (endt : ℚ) then .ok true
            else scan_windows rest tod

/-- Model of `RoomConfig.within_time_range`: `False` when today has no
schedule; otherwise the window loop runs inside `try ... except ValueError:
return False`, so a `ValueError` anywhere in the loop yields `False` while
any other exception (notably `IndexError`) propagates. -/
def within_time_range (room : RoomConfig) (now : Instant) : Except PyExc Bool :=
  match todays_schedules room now with
  | none => .ok false
  | some schedules =>
    match scan_windows schedules now.tod with
    | .error .valueError => .ok false
    | r => r

/-- One hourly price sample (`class HourlyPrice`); `start_at` is an absolute
UTC instant in minutes. -/
structure HourlyPrice where
  total : ℚ
  start_at : ℚ
deriving DecidableEq, Repr

/-- Model of the `HourlyPrice.end_at` property:
`self.start_at + timedelta(minutes=60)`. -/
def HourlyPrice.end_at (p : HourlyPrice) : ℚ := p.start_at + 60

/-- Today's price list (`class DailyPrices`, the payload extracted from
`data.viewer.home.currentSubscription.priceInfo.today`). -/
structure DailyPrices where
  prices : List HourlyPrice
deriving DecidableEq, Repr

/-- Calendar date of an absolute instant (`datetime.date()`): the day number,
with 1440 minutes per day. -/
def dateOf (t : ℚ) : ℤ := ⌊t / 1440⌋

/-- Mutable state of `class Tibber`: the cached daily prices and the
resolved current price. -/
structure Tibber where
  daily_electricity_prices : Option DailyPrices := none
  price_now : Option ℚ := none
deriving DecidableEq, Repr

/-- Model of `Tibber.is_stale`:
`not self.daily_electricity_prices or self.daily_electricity_prices.prices[0].start_at.date() != datetime.now(UTC).date()`.
A pydantic model instance is always truthy, so a cached `DailyPrices` whose
`prices` list is empty reaches the `prices[0]` subscript and raises
`IndexError`. -/
def is_stale (s : Tibber) (now : ℚ) : Except PyExc Bool :=
  match s.daily_electricity_prices with
  | none => .ok true
  | some dp =>
    match dp.prices with
    | [] => .error .indexError
    | p :: _ => .ok (decide (dateOf p.start_at ≠ dateOf now))

/-- Shape of the decoded HTTP response body for the price query: either the
expected JSON path is present with today's samples, or the shape is
malformed/missing (`pydantic` raises `ValidationError`). -/
inductive ResponseBody where
  | malformed
  | today (prices : List HourlyPrice)
deriving DecidableEq, Repr

/-- Outcome of the `httpx.post` call: a transport failure
(`httpx.RequestError`) or a response with a success flag for
`raise_for_status()`. -/
inductive HttpResult where
  | transport_error
  | response (status_ok : Bool) (body : ResponseBody)
deriving DecidableEq, Repr

/-- Model of `Tibber.update_daily_electricity_prices`.  The `try` block
performs the POST and `raise_for_status()`; its `except httpx.RequestError`
clause re-raises a transport failure as `TibberApiError`.  A non-success
status makes `raise_for_status()` raise `httpx.HTTPStatusError`, which is
not a subclass of `httpx.RequestError` and therefore escapes the `except`
clause unchanged.  On a success status, `DailyPrices.model_validate_json`
raises `ValidationError` for a malformed/missing JSON shape. -/
def update_daily_electricity_prices : HttpResult → Except PyExc DailyPrices
  | .transport_error => .error .tibberApiError
  | .response false _ => .error .httpStatusError
  | .response true .malformed => .error .validationError
  | .response true (.today prices) => .ok ⟨prices⟩

/-- Model of the `for price in ... if price.start_at <= now < price.end_at`
scan at the end of `Tibber.update_electricity_prices`: the first sample
whose half-open hour interval contains `now` supplies `price_now`; the
loop's `else` arm yields `None`.  The write of the price to the fixed sink
path is an external side effect, not modelled. -/
def resolve_price_now : List HourlyPrice → ℚ → Option ℚ
  | [], _ => none
  | price :: rest, now =>
    if price.start_at ≤ now ∧ now < price.end_at then some price.total
    else resolve_price_now rest now

/-- Model of `Tibber.update_electricity_prices`: when the cache is stale the
fetch runs, `except (TibberApiError, ValidationError)` resets
`daily_electricity_prices` to `None`, and any other exception propagates;
then `price_now` is recomputed from the (possibly new) cache. -/
def update_electricity_prices (s : Tibber) (r : HttpResult) (now : ℚ) :
    Except PyExc Tibber := do
  let stale ← is_stale s now
  let s1 ←
    if stale then
      match update_daily_electricity_prices r with
      | .ok dp => pure { s with daily_electricity_prices := some dp }
      | .error PyExc.tibberApiError => pure { s with daily_electricity_prices := none }
      | .error PyExc.validationError => pure { s with daily_electricity_prices := none }
      | .error e => .error e
    else pure s
  match s1.daily_electricity_prices with
  | none => pure { s1 with price_now := none }
  | some dp => pure { s1 with price_now := resolve_price_now dp.prices now }

/-- Model of `Tibber.exceed_max_price`: `False` when `self.price_now` is
falsy (`None` or `0`) or the cutoff is `None`; `False` when the price is
strictly below the cutoff; `True` otherwise. -/
def exceed_max_price (price_now price_cut_off : Option ℚ) : Bool :=
  if ¬truthyRat price_now ∨ price_cut_off = none then false
  else if price_now.getD 0 < price_cut_off.getD 0 then false
  else true

/-- Parsed sensor reading (`class Termostat`): the raw deCONZ integers are
divided by 100 by `convert_to_fraction`. -/
structure Termostat where
  name : String
  temperature : ℚ
  floor_temperatur : ℚ
  heat_set_point : ℚ
  heating : Bool
deriving DecidableEq, Repr

/-- Raw state of the deCONZ sensor/actuator as exposed by its API:
`state.temperature`, `state.floortemperature`, `config.heatsetpoint`
(all integers scaled by 100) and `state.heating`. -/
structure SensorState where
  name : String
  temperature : ℤ
  floortemperature : ℤ
  heatsetpoint : ℤ
  heating : Bool
deriving DecidableEq, Repr

/-- Model of `convert_to_fraction`: `v / 100`. -/
def convert_to_fraction (v : ℤ) : ℚ := (v : ℚ) / 100

/-- Validation of a sensor response into a `Termostat`
(the `AfterValidator(convert_to_fraction)` annotations). -/
def parseTermostat (s : SensorState) : Termostat :=
  { name := s.name
    temperature := convert_to_fraction s.temperature
    floor_temperatur := convert_to_fraction s.floortemperature
    heat_set_point := convert_to_fraction s.heatsetpoint
    heating := s.heating }

/-- Model of `get_heatsetpoint_sensor`: `None` on a transport failure or
non-200 status (the `transport_ok` flag), otherwise the validated reading
of the live sensor state. -/
def get_heatsetpoint_sensor (transport_ok : Bool) (s : SensorState) : Option Termostat :=
  if transport_ok then some (parseTermostat s) else none

/-- Value written to `config.heatsetpoint` by `adjust_temperature`: targets
at most 5 or at least 25 are clamped to 10, and the result is scaled by
100. -/
def adjust_temperature_payload (temperature : ℤ) : ℤ :=
  if temperature ≤ 5 ∨ temperature ≥ 25 then 10 * 100 else temperature * 100

/-- Effect of `adjust_temperature` on the sensor: the PUT sets
`config.heatsetpoint` to the clamped, scaled payload (a failed PUT is
logged and swallowed; the success path is modelled). -/
def adjust_temperature (s : SensorState) (temperature : ℤ) : SensorState :=
  { s with heatsetpoint := adjust_temperature_payload temperature }

/-- Model of `ensure_temperature`: read the sensor; when the read succeeds
and `termostat.temperature != set_temperature` (the parsed measured
temperature against the target), perform the actuator write.  Returns
whether a write was issued and the resulting sensor state. -/
def ensure_temperature (transport_ok : Bool) (s : SensorState) (set_temperature : ℤ) :
    Bool × SensorState :=
  match get_heatsetpoint_sensor transport_ok s with
  | none => (false, s)
  | some termostat =>
    if termostat.temperature ≠ (set_temperature : ℚ) then
      (true, adjust_temperature s set_temperature)
    else (false, s)

/-- Two consecutive `ensure_temperature` calls against the same room with no
external state change between them (both sensor reads succeed; the only
state change is the one made by the first call's own write).  Returns the
number of actuator writes and the final sensor state. -/
def ensure_temperature_twice (s : SensorState) (set_temperature : ℤ) : ℕ × SensorState :=
  let r1 := ensure_temperature true s set_temperature
  let r2 := ensure_temperature true r1.2 set_temperature
  ((if r1.1 then 1 else 0) + (if r2.1 then 1 else 0), r2.2)

/-- Per-room body of `set_schedule`: `set_temperature` starts at
`room.night_temperature or global.night_temperature or 10`; when
`tibber.exceed_max_price(room.max_price or global.max_price)` holds the
default is kept (the schedule is not even evaluated); otherwise, when
`room.within_time_range` holds, the target becomes
`room.temperature or global.temperature or 10`.  The value is the one
passed on to `ensure_temperature` for this room. -/
def set_schedule_target (room : RoomConfig) (g : GlobalConfig) (price_now : Option ℚ)
    (now : Instant) : Except PyExc ℤ :=
  let set_temperature : ℤ := pyOrInt room.night_temperature (pyOrInt g.night_temperature 10)
  if exceed_max_price price_now (pyOrOpt room.max_price g.max_price) then
    .ok set_temperature
  else
    (within_time_range room now).map fun m =>
      if m then pyOrInt room.temperature (pyOrInt g.temperature 10) else set_temperature

/-- Parsed bounds of one window string, following the spec's reading of a
well-formed `"HH:MM-HH:MM"` window: at least two dash-separated fields,
both parsing as times of day. -/
def windowBounds (w : String) : Option (ℕ × ℕ) :=
  match pySplitDash w.data with
  | p0 :: p1 :: _ =>
    match parseHHMM p0, parseHHMM p1 with
    | some s, some e => some (s, e)
    | _, _ => none
  | _ => none

/-- Membership of one instant in one well-formed window, spelled from the
spec's words with the inclusive bounds the source actually uses:
`start ≤ now ≤ end` on today's date. -/
def windowMatches (w : String) (tod : ℚ) : Bool :=
  match windowBounds w with
  | some (s, e) => decide ((s : ℚ) ≤ tod ∧ tod ≤ (e : ℚ))
  | none => false

/-- Schedule membership spelled from the spec's words: some listed window
contains the instant. -/
def matchesSpec (ws : List String) (tod : ℚ) : Bool :=
  ws.any fun w => windowMatches w tod

/-- Fixture: the spec's `livingroom` example room — day temperature 21,
night temperature 16, monday window `08:00-22:00`, no max price. -/
def livingroomRoom : RoomConfig :=
  { name := "livingroom", uniqueid := "sensor-1"
    schedule := fun d => match d with
      | .monday => some (some ["08:00-22:00"])
      | _ => none
    temperature := some 21
    night_temperature := some 16 }

/-- Fixture: a room whose monday window string `"08:00"` holds a valid
`HH:MM` time but no `-` separator. -/
def badWindowRoom : RoomConfig :=
  { name := "kjeller", uniqueid := "sensor-2"
    schedule := fun d => match d with
      | .monday => some (some ["08:00"])
      | _ => none }

/-- Fixture: a global configuration with no fallback overrides. -/
def defaultGlobal : GlobalConfig :=
  { debug := false, sleep := 60, lat := 0, long := 0 }

/-- A window matches exactly when its bounds parse and enclose the instant
inclusively. -/
lemma windowMatches_iff (w : String) (tod : ℚ) :
    windowMatches w tod = true ↔
      ∃ s e : ℕ, windowBounds w = some (s, e) ∧ (s : ℚ) ≤ tod ∧ tod ≤ (e : ℚ) := by
  unfold windowMatches
  rcases hb : windowBounds w with _ | ⟨s, e⟩
  · simp [hb]
  · simp only [hb, decide_eq_true_eq]
    constructor
    · intro h
      exact ⟨s, e, rfl, h⟩
    · rintro ⟨s', e', heq, h⟩
      rcases Option.some.injEq _ _ ▸ heq with h'
      cases h'
      exact h

/-- On a list of well-formed window strings the source loop raises nothing
and computes exactly the inclusive any-window membership. -/
lemma scan_windows_wf (ws : List String) (tod : ℚ)
    (hwf : ∀ w ∈ ws, (windowBounds w).isSome) :
    scan_windows ws tod = .ok (matchesSpec ws tod) := by
  induction ws with
  | nil => simp [scan_windows, matchesSpec]
  | cons w rest ih =>
    have hw : (windowBounds w).isSome := hwf w (List.mem_cons_self w rest)
    have hrest : ∀ x ∈ rest, (windowBounds x).isSome :=
      fun x hx => hwf x (List.mem_cons_of_mem w hx)
    rcases hsplit : pySplitDash w.data with _ | ⟨p0, ptail⟩
    · simp [windowBounds, hsplit] at hw
    · rcases hp0 : parseHHMM p0 with _ | s
      · rcases ptail with _ | ⟨p1, tl⟩ <;> simp [windowBounds, hsplit, hp0] at hw
      · rcases ptail with _ | ⟨p1, tl⟩
        · simp [windowBounds, hsplit] at hw
        · rcases hp1 : parseHHMM p1 with _ | e
          · simp [windowBounds, hsplit, hp0, hp1] at hw
          · by_cases hin : (s : ℚ) ≤ tod ∧ tod ≤ (e : ℚ)
            · simp [scan_windows, matchesSpec, windowMatches, windowBounds,
                hsplit, hp0, hp1, hin]
            · simp [scan_windows, matchesSpec, windowMatches, windowBounds,
                hsplit, hp0, hp1, hin, ih hrest]

/-- Claim C1 (amended): on a weekday with listed windows that all parse as
`"HH:MM-HH:MM"`, the membership test `within_time_range` returns `true` iff
some window's bounds, combined with today's date, satisfy
`start ≤ now ≤ end` — the bounds are inclusive, so boundary instants match —
and a cross-midnight window (`end < start`) never matches. -/
theorem within_time_range_inclusive (room : RoomConfig) (now : Instant) (ws : List String)
    (hs : todays_schedules room now = some ws)
    (hwf : ∀ w ∈ ws, (windowBounds w).isSome) :
    within_time_range room now = .ok (matchesSpec ws now.tod)
    ∧ (within_time_range room now = .ok true ↔
        ∃ w ∈ ws, ∃ s e : ℕ, windowBounds w = some (s, e) ∧
          (s : ℚ) ≤ now.tod ∧ now.tod ≤ (e : ℚ))
    ∧ ∀ w ∈ ws, ∀ s e : ℕ, windowBounds w = some (s, e) → (e : ℚ) < (s : ℚ) →
        ¬((s : ℚ) ≤ now.tod ∧ now.tod ≤ (e : ℚ)) := by
  have h1 : within_time_range room now = .ok (matchesSpec ws now.tod) := by
    simp [within_time_range, hs, scan_windows_wf ws now.tod hwf]
  refine ⟨h1, ?_, ?_⟩
  · rw [h1]
    simp only [Except.ok.injEq]
    rw [matchesSpec, List.any_eq_true]
    constructor
    · rintro ⟨w, hw, hmatch⟩
      exact ⟨w, hw, (windowMatches_iff w now.tod).mp hmatch⟩
    · rintro ⟨w, hw, hb⟩
      exact ⟨w, hw, (windowMatches_iff w now.tod).mpr hb⟩
  · rintro w hw s e hb hlt ⟨hle1, hle2⟩
    have hse : (s : ℚ) ≤ (e : ℚ) := le_trans hle1 hle2
    linarith

/-- Claim C1, original strict-bounds reading refuted: at `Monday 08:00`,
an instant equal to the parsed start boundary of the window
`"08:00-22:00"` (480 minutes), the membership test returns `true`, where
the claim requires `false` for boundary instants. -/
theorem within_time_range_boundary_cex :
    within_time_range livingroomRoom ⟨Weekday.monday, 480⟩ = .ok true
    ∧ parseHHMM "08:00".data = some 480 :=
  ⟨rfl, rfl⟩

/-- Claim C1 witness: the amended theorem applied to the `livingroom`
fixture at Monday 08:00. -/
theorem within_time_range_inclusive_witness :
    within_time_range livingroomRoom ⟨Weekday.monday, 480⟩ =
      .ok (matchesSpec ["08:00-22:00"] 480) :=
  (within_time_range_inclusive livingroomRoom ⟨Weekday.monday, 480⟩ ["08:00-22:00"]
    rfl (by decide)).1

/-- Claim C6: a window string holding a valid `HH:MM` time but no `-`
separator makes `within_time_range` raise `IndexError` from
`schdule.split("-")[1]`; `IndexError` is not caught by the
`except ValueError` clause (nor anywhere up the call chain), so the lookup
does not fail closed — it propagates and halts the control loop. -/
theorem within_time_range_indexerror :
    within_time_range badWindowRoom ⟨Weekday.monday, 600⟩ = .error .indexError
    ∧ parseHHMM "08:00".data = some 480 :=
  ⟨rfl, rfl⟩

/-- Claim C2: the per-room target of `set_schedule` follows the precedence —
when the current price exceeds the applicable cutoff (room `max_price`, else
global) the default `room.night_temperature or global.night_temperature or
10` is kept unconditionally, even when the schedule matches; otherwise the
target is `room.temperature or global.temperature or 10` on a schedule
match and the default on a non-match. -/
theorem set_schedule_target_precedence (room : RoomConfig) (g : GlobalConfig)
    (pn : Option ℚ) (now : Instant) :
    (exceed_max_price pn (pyOrOpt room.max_price g.max_price) = true →
      set_schedule_target room g pn now =
        .ok (pyOrInt room.night_temperature (pyOrInt g.night_temperature 10)))
    ∧ (exceed_max_price pn (pyOrOpt room.max_price g.max_price) = false →
        ∀ b, within_time_range room now = .ok b →
          set_schedule_target room g pn now =
            .ok (if b then pyOrInt room.temperature (pyOrInt g.temperature 10)
                 else pyOrInt room.night_temperature (pyOrInt g.night_temperature 10))) := by
  constructor
  · intro h
    simp [set_schedule_target, h]
  · intro h b hb
    simp [set_schedule_target, h, hb, Except.map]

/-- Claim C2 witness: the `livingroom` fixture at Monday 10:00 with no price
data — the schedule matches, no cutoff exceedance, target 21. -/
theorem set_schedule_target_precedence_witness :
    set_schedule_target livingroomRoom defaultGlobal none ⟨Weekday.monday, 600⟩ = .ok 21 := by
  have h := (set_schedule_target_precedence livingroomRoom defaultGlobal none
    ⟨Weekday.monday, 600⟩).2 rfl true rfl
  simpa [pyOrInt, truthyInt, livingroomRoom] using h

/-- Claim C3 refuted: `ensure_temperature` compares the parsed measured
temperature (`termostat.temperature`, here 20.00 °C) to the target (21 °C),
not the live set-point (`termostat.heat_set_point`, here already 21.00 °C),
so two consecutive calls with no external state change both issue an
actuator write: two writes where the claim allows at most one (and implies
zero, since the live set-point already equals the target). -/
theorem ensure_temperature_double_write :
    (ensure_temperature_twice
      { name := "livingroom", temperature := 2000, floortemperature := 2000,
        heatsetpoint := 2100, heating := false } 21).1 = 2
    ∧ (parseTermostat
        { name := "livingroom", temperature := 2000, floortemperature := 2000,
          heatsetpoint := 2100, heating := false }).heat_set_point = 21 := by
  constructor
  · norm_num [ensure_temperature_twice, ensure_temperature, get_heatsetpoint_sensor,
      parseTermostat, convert_to_fraction, adjust_temperature, adjust_temperature_payload]
  · norm_num [parseTermostat, convert_to_fraction]

/-- Claim C4 refuted on one of its three failure modes: with a stale cache,
a transport error or a malformed JSON shape is caught and resets the cache
(the fetched price stays unavailable), but a non-success HTTP status makes
`raise_for_status()` raise `httpx.HTTPStatusError`, which neither
`except httpx.RequestError` nor `except (TibberApiError, ValidationError)`
catches, so `update_electricity_prices` propagates it and the control loop
aborts. -/
theorem update_electricity_prices_status_escape :
    update_electricity_prices ⟨none, none⟩ (.response false .malformed) 0 =
      .error .httpStatusError
    ∧ update_electricity_prices ⟨none, none⟩ (.response false (.today [⟨2, 0⟩])) 0 =
        .error .httpStatusError
    ∧ update_electricity_prices ⟨none, none⟩ .transport_error 0 = .ok ⟨none, none⟩
    ∧ update_electricity_prices ⟨none, none⟩ (.response true .malformed) 0 = .ok ⟨none, none⟩
    ∧ update_electricity_prices ⟨some ⟨[⟨1, -1440⟩]⟩, some 1⟩ .transport_error 0 =
        .ok ⟨none, none⟩ := by
  refine ⟨rfl, rfl, rfl, rfl, ?_⟩
  norm_num [update_electricity_prices, is_stale, dateOf, update_daily_electricity_prices,
    Except.bind, bind, pure, Except.pure]

/-- Claim C5: `exceed_max_price` is `true` exactly when the current price is
available and non-zero, the cutoff is present, and the price is at least
the cutoff (so a price exactly equal to the cutoff counts as exceeding);
it is `false` when the price is unavailable or exactly zero or the cutoff
is absent. -/
theorem exceed_max_price_spec (pn c : Option ℚ) :
    (exceed_max_price pn c = true ↔
      ∃ p, pn = some p ∧ p ≠ 0 ∧ ∃ q, c = some q ∧ q ≤ p)
    ∧ exceed_max_price none c = false
    ∧ exceed_max_price (some 0) c = false
    ∧ exceed_max_price pn none = false := by
  refine ⟨?_, ?_, ?_, ?_⟩
  · rcases pn with _ | p
    · simp [exceed_max_price, truthyRat]
    · rcases c with _ | q
      · simp [exceed_max_price, truthyRat]
      · by_cases hp : p = 0
        · simp [exceed_max_price, truthyRat, hp]
        · by_cases hlt : p < q
          · simp [exceed_max_price, truthyRat, hp, hlt]
          · simp [exceed_max_price, truthyRat, hp, hlt, not_lt.mp hlt]
  · simp [exceed_max_price, truthyRat]
  · simp [exceed_max_price, truthyRat]
  · rcases pn with _ | p <;> simp [exceed_max_price, truthyRat]

/-- The current-price scan yields `none` exactly when no sample's half-open
hour interval contains `now`. -/
lemma resolve_price_now_none_iff (prices : List HourlyPrice) (now : ℚ) :
    resolve_price_now prices now = none ↔
      ∀ p ∈ prices, ¬(p.start_at ≤ now ∧ now < p.end_at) := by
  induction prices with
  | nil => simp [resolve_price_now]
  | cons q rest ih =>
    simp only [resolve_price_now]
    by_cases h : q.start_at ≤ now ∧ now < q.end_at
    · simp [h]
    · simp only [if_neg h, List.forall_mem_cons, ih]
      constructor
      · intro hr
        exact ⟨h, hr⟩
      · rintro ⟨_, hr⟩
        exact hr

/-- Under pairwise disjoint intervals the scan returns the total of any
containing sample. -/
lemma resolve_price_now_first (now : ℚ) :
    ∀ prices : List HourlyPrice,
      List.Pairwise (fun p q => p.end_at ≤ q.start_at ∨ q.end_at ≤ p.start_at) prices →
      ∀ p ∈ prices, p.start_at ≤ now → now < p.end_at →
        resolve_price_now prices now = some p.total := by
  intro prices
  induction prices with
  | nil =>
    intro _ p hp
    simp at hp
  | cons q rest ih =>
    intro hdisj p hp h1 h2
    rcases List.pairwise_cons.mp hdisj with ⟨hq, hrest⟩
    rcases List.mem_cons.mp hp with rfl | hp'
    · simp [resolve_price_now, h1, h2]
    · have hnq : ¬(q.start_at ≤ now ∧ now < q.end_at) := by
        rcases hq p hp' with hle | hle
        · rintro ⟨hq1, hq2⟩
          linarith
        · rintro ⟨hq1, hq2⟩
          linarith
      simp only [resolve_price_now, hnq, if_false]
      exact ih hrest p hp' h1 h2

/-- Under pairwise disjoint intervals at most one sample contains `now`. -/
lemma resolve_price_now_unique (now : ℚ) :
    ∀ prices : List HourlyPrice,
      List.Pairwise (fun p q => p.end_at ≤ q.start_at ∨ q.end_at ≤ p.start_at) prices →
      ∀ p ∈ prices, ∀ q ∈ prices,
        p.start_at ≤ now → now < p.end_at → q.start_at ≤ now → now < q.end_at → p = q := by
  intro prices
  induction prices with
  | nil =>
    intro _ p hp
    simp at hp
  | cons r rest ih =>
    intro hdisj p hp q hq hp1 hp2 hq1 hq2
    rcases List.pairwise_cons.mp hdisj with ⟨hr, hrest⟩
    rcases List.mem_cons.mp hp with rfl | hp' <;> rcases List.mem_cons.mp hq with rfl | hq'
    · rfl
    · exfalso
      rcases hr q hq' with hle | hle <;> linarith
    · exfalso
      rcases hr p hp' with hle | hle <;> linarith
    · exact ih hrest p hp' q hq' hp1 hp2 hq1 hq2

/-- Claim C7: each sample's interval is `[start_at, start_at + 60)`; the
current-price resolution returns `none` iff no sample's interval contains
`now` (so in particular on an empty cache); and for pairwise non-overlapping
samples the containing sample is unique and its `total` is the result. -/
theorem resolve_price_now_spec (prices : List HourlyPrice) (now : ℚ) :
    (∀ p : HourlyPrice, p.end_at = p.start_at + 60)
    ∧ (resolve_price_now prices now = none ↔
        ∀ p ∈ prices, ¬(p.start_at ≤ now ∧ now < p.end_at))
    ∧ (List.Pairwise (fun p q => p.end_at ≤ q.start_at ∨ q.end_at ≤ p.start_at) prices →
        (∀ p ∈ prices, p.start_at ≤ now ∧ now < p.end_at →
          resolve_price_now prices now = some p.total)
        ∧ ∀ p ∈ prices, ∀ q ∈ prices,
            (p.start_at ≤ now ∧ now < p.end_at) → (q.start_at ≤ now ∧ now < q.end_at) →
              p = q) := by
  refine ⟨fun p => rfl, resolve_price_now_none_iff prices now, fun hdisj => ⟨?_, ?_⟩⟩
  · rintro p hp ⟨h1, h2⟩
    exact resolve_price_now_first now prices hdisj p hp h1 h2
  · rintro p hp q hq ⟨hp1, hp2⟩ ⟨hq1, hq2⟩
    exact resolve_price_now_unique now prices hdisj p hp q hq hp1 hp2 hq1 hq2

/-- Claim C7 witness: two hour-aligned samples at minutes 0 and 60; at
minute 75 the second sample's total is resolved. -/
theorem resolve_price_now_spec_witness :
    resolve_price_now [⟨1, 0⟩, ⟨2, 60⟩] 75 = some 2 := by
  refine ((resolve_price_now_spec [⟨1, 0⟩, ⟨2, 60⟩] 75).2.2 ?_).1 ⟨2, 60⟩ ?_ ?_
  · norm_num [List.pairwise_cons, HourlyPrice.end_at]
  · simp
  · constructor <;> norm_num [HourlyPrice.end_at]

/-- Claim C8 refuted at one cache state: a cached `DailyPrices` object whose
sample list is empty holds no samples, yet `is_stale` does not return
`true` — the pydantic model is truthy, so `prices[0]` raises `IndexError`. -/
theorem is_stale_empty_prices_cex :
    is_stale ⟨some ⟨[]⟩, none⟩ 0 = .error .indexError :=
  rfl

/-- Claim C8 (amended): `is_stale` returns `true` when the cache is unset
(`None`); when the cache holds a nonempty sample list it returns `true` iff
the first sample's calendar date differs from `now`'s date (`false` when
they agree); a cache object holding an empty sample list raises `IndexError`
instead of returning. -/
theorem is_stale_cases (pn : Option ℚ) (now : ℚ) (p : HourlyPrice) (ps : List HourlyPrice) :
    is_stale ⟨none, pn⟩ now = .ok true
    ∧ is_stale ⟨some ⟨p :: ps⟩, pn⟩ now = .ok (decide (dateOf p.start_at ≠ dateOf now))
    ∧ is_stale ⟨some ⟨[]⟩, pn⟩ now = .error .indexError :=
  ⟨rfl, rfl, rfl⟩

/-- Claim C9: the value sent to the actuator is the clamped target — 10 when
the requested target is at most 5 or at least 25, the target itself
otherwise — multiplied by 100. -/
theorem adjust_temperature_clamp (t : ℤ) :
    adjust_temperature_payload t = (if t ≤ 5 ∨ 25 ≤ t then 10 else t) * 100 := by
  unfold adjust_temperature_payload
  split <;> ring

/-- Claim C10: every fallback chain in the target resolution uses Python
truthiness, so a value configured as 0 behaves as unset: a room or global
`night_temperature` of 0, a room or global day `temperature` of 0, and a
room `max_price` of 0.0 each fall through to the next fallback, the
temperature chains ending at 10. -/
theorem set_schedule_target_zero_unset (room : RoomConfig) (g : GlobalConfig)
    (pn : Option ℚ) (now : Instant) :
    set_schedule_target { room with night_temperature := some 0 } g pn now
      = set_schedule_target { room with night_temperature := none } g pn now
    ∧ set_schedule_target room { g with night_temperature := some 0 } pn now
      = set_schedule_target room { g with night_temperature := none } pn now
    ∧ set_schedule_target { room with temperature := some 0 } g pn now
      = set_schedule_target { room with temperature := none } g pn now
    ∧ set_schedule_target room { g with temperature := some 0 } pn now
      = set_schedule_target room { g with temperature := none } pn now
    ∧ set_schedule_target { room with max_price := some 0 } g pn now
      = set_schedule_target { room with max_price := none } g pn now
    ∧ pyOrInt (some 0) (pyOrInt (some 0) 10) = 10
    ∧ pyOrOpt (some 0) g.max_price = g.max_price :=
  ⟨rfl, rfl, rfl, rfl, rfl, rfl, rfl⟩

end Kjeller
